import Mathlib

/-!
Shallow embedding of the simulated chat core of `src/src/app/alma/page.tsx`
(the ALMA chat page): the message data model, the initial session state, the
`handleSendMessage` transition, the deferred `setTimeout` callback and the
`generateAlmaResponse` template picker.  `Date` timestamps become natural
numbers (milliseconds since epoch) and each `Math.random()` draw becomes an
explicit rational parameter in `[0, 1)`.
-/

namespace Alma

/-- Message roles, the TS union `'user' | 'assistant'` (page.tsx line 9). -/
inductive Role where
  | user
  | assistant
deriving DecidableEq, Repr

/-- The `Message` interface (page.tsx lines 6-11); the `Date` timestamp is
modelled as milliseconds since epoch. -/
structure Message where
  id : String
  content : String
  role : Role
  timestamp : Nat
deriving DecidableEq, Repr

/-- Component state of the page: the `messages` and `isTyping` `useState`
cells, plus the multiset of `setTimeout` callbacks scheduled but not yet
fired, each recorded by the submitted text it closes over. -/
structure SessionState where
  messages : List Message
  isTyping : Bool
  pending : List String
deriving DecidableEq, Repr

/-- The seeded greeting text (page.tsx line 17). -/
def greetingText : String :=
  "¡Hola! Soy ALMA, tu asistente de inteligencia artificial. ¿En qué puedo ayudarte hoy?"

/-- The initial state of the two `useState` cells (page.tsx lines 14-22): one
assistant greeting message with id "1", typing flag off, nothing scheduled. -/
def initialState (t0 : Nat) : SessionState :=
  ⟨[⟨"1", greetingText, Role.assistant, t0⟩], false, []⟩

/-- The five template strings of `generateAlmaResponse` (page.tsx lines
59-65).  Only the first and the third interpolate `userInput`. -/
def responses (userInput : String) : List String :=
  ["Entiendo tu consulta sobre \"" ++ userInput ++ "\". Como ALMA, puedo ayudarte a analizar este tema desde diferentes perspectivas.",
   "Es una pregunta muy interesante. Basándome en mi conocimiento, puedo decirte que...",
   "Me parece un tema fascinante. Permíteme compartir contigo algunos insights sobre \"" ++ userInput ++ "\".",
   "Gracias por compartir eso conmigo. Como agente de IA, mi análisis sugiere que...",
   "Excelente pregunta. Desde mi perspectiva como ALMA, considero que este es un punto muy relevante."]

/-- The fixed closing sentence appended to every reply (page.tsx line 69),
with its leading space from the template string. -/
def closingText : String := " ¿Te gustaría que profundice en algún aspecto específico?"

/-- JavaScript array indexing `xs[i]`: `none` models the `undefined` produced
by an out-of-bounds or negative index. -/
def jsArrayGet (xs : List String) (i : Int) : Option String :=
  if 0 ≤ i then xs[i.toNat]? else none

/-- The index `Math.floor(Math.random() * responses.length)` (page.tsx line
67), with the `Math.random()` draw given as the rational `r`. -/
def templateIndex (userInput : String) (r : ℚ) : Int :=
  Int.floor (r * ((responses userInput).length : ℚ))

/-- `generateAlmaResponse` (page.tsx lines 58-70): pick one template by the
random draw and append the closing sentence.  An out-of-bounds lookup would
interpolate as the string "undefined", as template interpolation of an
`undefined` value does in JavaScript. -/
def generateAlmaResponse (userInput : String) (r : ℚ) : String :=
  (jsArrayGet (responses userInput) (templateIndex userInput r)).getD "undefined"
    ++ closingText

/-- The user message built by `handleSendMessage` (page.tsx lines 34-39);
`now` is the value of `Date.now()` at the call. -/
def userMessage (content : String) (now : Nat) : Message :=
  ⟨toString now, content, Role.user, now⟩

/-- `handleSendMessage` (page.tsx lines 33-56): append the user message, set
the typing flag, and schedule one deferred callback that closes over
`content`.  The function performs no check of `isTyping`. -/
def handleSendMessage (s : SessionState) (content : String) (now : Nat) : SessionState :=
  ⟨s.messages ++ [userMessage content now], true, s.pending ++ [content]⟩

/-- The assistant message built inside the timeout callback (page.tsx lines
46-51); `now` is `Date.now()` at fire time and `r` the draw used by
`generateAlmaResponse`. -/
def almaMessage (content : String) (r : ℚ) (now : Nat) : Message :=
  ⟨toString (now + 1), generateAlmaResponse content r, Role.assistant, now⟩

/-- The body of the `setTimeout` callback (page.tsx lines 45-55): append the
generated assistant message and clear the typing flag; the fired callback is
no longer outstanding. -/
def fireResponse (s : SessionState) (content : String) (r : ℚ) (now : Nat) : SessionState :=
  ⟨s.messages ++ [almaMessage content r now], false, s.pending.erase content⟩

/-- The timeout delay `1000 + Math.random() * 2000` in milliseconds (page.tsx
line 55), with the draw given as the rational `r`. -/
def responseDelay (r : ℚ) : ℚ := 1000 + r * 2000

/-- What unmounting the page leaves scheduled: the component's only
`useEffect` (page.tsx lines 29-31) returns no cleanup and `clearTimeout`
appears nowhere, so disposal cancels nothing and every pending callback will
still fire afterwards. -/
def pendingAfterDispose (s : SessionState) : List String := s.pending

/-- Reachable session states, indexed by the current time: the clock only
moves forward, `submit` runs `handleSendMessage` at the current time, and a
scheduled callback may fire at the current time. -/
inductive Reachable : Nat → SessionState → Prop where
  | init (t0 : Nat) : Reachable t0 (initialState t0)
  | submit {t : Nat} {s : SessionState} (content : String) (now : Nat)
      (hle : t ≤ now) (hr : Reachable t s) :
      Reachable now (handleSendMessage s content now)
  | fire {t : Nat} {s : SessionState} (content : String) (r : ℚ) (now : Nat)
      (hle : t ≤ now) (hmem : content ∈ s.pending) (hr : Reachable t s) :
      Reachable now (fireResponse s content r now)

/-- `big` contains `small` as a contiguous substring. -/
def strContains (big small : String) : Prop := List.IsInfix small.data big.data

instance (big small : String) : Decidable (strContains big small) :=
  List.decidableInfix small.data big.data

/-- C9: the initial session state holds exactly one message, the assistant
greeting, and the typing flag is off. -/
theorem initialState_one_assistant_greeting (t0 : Nat) :
    (initialState t0).messages.length = 1 ∧
    (initialState t0).messages = [⟨"1", greetingText, Role.assistant, t0⟩] ∧
    (initialState t0).isTyping = false :=
  ⟨rfl, rfl, rfl⟩

/-- C1: from the Idle state, `handleSendMessage` appends exactly one user
message carrying the submitted content and sets the typing flag; the deferred
callback then appends exactly one assistant message and clears the flag, so
the flag is true between the two appends and false before and after. -/
theorem submit_then_fire_behaviour (s : SessionState) (content : String)
    (tS tF : Nat) (r : ℚ) (hIdle : s.isTyping = false) :
    (handleSendMessage s content tS).messages = s.messages ++ [userMessage content tS] ∧
    (userMessage content tS).content = content ∧
    (userMessage content tS).role = Role.user ∧
    (handleSendMessage s content tS).isTyping = true ∧
    (fireResponse (handleSendMessage s content tS) content r tF).messages
      = (handleSendMessage s content tS).messages ++ [almaMessage content r tF] ∧
    (almaMessage content r tF).role = Role.assistant ∧
    (fireResponse (handleSendMessage s content tS) content r tF).isTyping = false :=
  ⟨rfl, rfl, rfl, rfl, rfl, rfl, rfl⟩

/-- C1 witness: the property instantiated on a concrete run from the initial
state. -/
theorem submit_then_fire_behaviour_witness :
    (fireResponse (handleSendMessage (initialState 0) "hola" 5) "hola" 0 1500).messages
      = (handleSendMessage (initialState 0) "hola" 5).messages
          ++ [almaMessage "hola" 0 1500] ∧
    (fireResponse (handleSendMessage (initialState 0) "hola" 5) "hola" 0 1500).isTyping
      = false :=
  ⟨(submit_then_fire_behaviour (initialState 0) "hola" 5 1500 0 rfl).2.2.2.2.1,
   (submit_then_fire_behaviour (initialState 0) "hola" 5 1500 0 rfl).2.2.2.2.2.2⟩

/-- C2 counterexample: with the typing flag already set, `handleSendMessage`
still changes the messages list, so the call is not a no-op. -/
theorem submit_while_typing_not_noop :
    (handleSendMessage (initialState 0) "a" 5).isTyping = true ∧
    (handleSendMessage (handleSendMessage (initialState 0) "a" 5) "b" 9).messages
      ≠ (handleSendMessage (initialState 0) "a" 5).messages := by
  refine ⟨rfl, fun h => ?_⟩
  simpa [handleSendMessage, initialState] using congrArg List.length h

/-- C2 amended: `handleSendMessage` performs no typing-flag check; invoked
while `isTyping` is true it still appends exactly one user message, and the
no-op behaviour is obtained only at the view layer by disabling the input. -/
theorem submit_while_typing_appends (s : SessionState) (content : String)
    (now : Nat) (h : s.isTyping = true) :
    (handleSendMessage s content now).messages = s.messages ++ [userMessage content now] :=
  rfl

/-- C2 amended witness: a concrete submit issued while the typing flag is
set. -/
theorem submit_while_typing_appends_witness :
    (handleSendMessage (handleSendMessage (initialState 0) "a" 5) "b" 9).messages
      = (handleSendMessage (initialState 0) "a" 5).messages ++ [userMessage "b" 9] :=
  submit_while_typing_appends (handleSendMessage (initialState 0) "a" 5) "b" 9 rfl

/-- C4: the code contains no cancellation of the scheduled timeout (the sole
`useEffect` returns no cleanup), so after disposing the view the callback
scheduled by a submit is still pending rather than suppressed. -/
theorem dispose_keeps_pending_callback :
    pendingAfterDispose (handleSendMessage (initialState 0) "hola" 5) = ["hola"] :=
  rfl

/-- C6: for every draw in `[0, 1)` the scheduled delay `1000 + r * 2000` lies
in the half-open interval `[1000, 3000)` milliseconds. -/
theorem responseDelay_in_range (r : ℚ) (h0 : 0 ≤ r) (h1 : r < 1) :
    1000 ≤ responseDelay r ∧ responseDelay r < 3000 := by
  unfold responseDelay
  constructor <;> nlinarith

/-- C6 witness: the delay bounds at the concrete draw one half. -/
theorem responseDelay_in_range_witness :
    1000 ≤ responseDelay (1/2) ∧ responseDelay (1/2) < 3000 :=
  responseDelay_in_range (1/2) (by norm_num) (by norm_num)

/-- The template list always has five entries, whatever the input. -/
theorem responses_length_q (s : String) : ((responses s).length : ℚ) = 5 := by
  simp [responses]

/-- For draws in `[0, 1)` the computed template index lies in `0..4`. -/
theorem templateIndex_bounds (s : String) (r : ℚ) (h0 : 0 ≤ r) (h1 : r < 1) :
    0 ≤ templateIndex s r ∧ templateIndex s r < 5 := by
  unfold templateIndex
  rw [responses_length_q]
  constructor
  · exact Int.floor_nonneg.mpr (by positivity)
  · refine Int.floor_lt.mpr ?_
    push_cast
    nlinarith

/-- A string interpolated between fixed surrounding text is a substring of the
result. -/
theorem strContains_interp (a s b c : String) : strContains ((a ++ s ++ b) ++ c) s := by
  unfold strContains
  refine ⟨a.data, b.data ++ c.data, ?_⟩
  simp [String.data_append, List.append_assoc]

set_option maxRecDepth 4000 in
/-- C3 counterexample: the draw one fifth selects the second template, which
does not interpolate the input, so the reply to "hola" does not contain
"hola". -/
theorem response_may_omit_input :
    ¬ strContains (generateAlmaResponse "hola" (1/5)) "hola" := by
  have hidx : templateIndex "hola" (1/5) = 1 := by
    unfold templateIndex
    rw [responses_length_q, show (1/5 : ℚ) * 5 = 1 by norm_num]
    exact Int.floor_one
  unfold generateAlmaResponse
  rw [hidx]
  decide

/-- C3 amended: only the first and the third template interpolate the input,
so whenever the random draw selects one of those two templates the reply
contains the input as a substring; the other three templates do not mention
it. -/
theorem response_contains_input_of_interpolating_index (s : String) (r : ℚ)
    (h : templateIndex s r = 0 ∨ templateIndex s r = 2) :
    strContains (generateAlmaResponse s r) s := by
  rcases h with h | h <;>
    ( unfold generateAlmaResponse jsArrayGet
      rw [h]
      norm_num
      exact strContains_interp _ s _ _ )

/-- C3 amended witness: the draw zero selects the first template and the reply
to "hola" contains "hola". -/
theorem response_contains_input_witness :
    strContains (generateAlmaResponse "hola" 0) "hola" :=
  response_contains_input_of_interpolating_index "hola" 0
    (Or.inl (by
      unfold templateIndex
      rw [responses_length_q, zero_mul]
      exact Int.floor_zero))

/-- C5: for every input string and every draw in `[0, 1)`, the generated reply
is one of the five strings obtained by appending the closing sentence to a
template instantiated with that input. -/
theorem response_in_template_set (s : String) (r : ℚ) (h0 : 0 ≤ r) (h1 : r < 1) :
    generateAlmaResponse s r ∈ (responses s).map (fun t => t ++ closingText) := by
  obtain ⟨hi0, _⟩ := templateIndex_bounds s r h0 h1
  have hi5 := (templateIndex_bounds s r h0 h1).2
  have hlt : (templateIndex s r).toNat < (responses s).length := by
    simp only [responses, List.length_cons, List.length_nil]
    omega
  unfold generateAlmaResponse jsArrayGet
  rw [if_pos hi0, List.getElem?_eq_getElem hlt, Option.getD_some]
  exact List.mem_map.mpr ⟨_, List.getElem_mem hlt, rfl⟩

/-- C5 witness: the reply to "hola" at the draw one half is in the
five-template set. -/
theorem response_in_template_set_witness :
    generateAlmaResponse "hola" (1/2)
      ∈ (responses "hola").map (fun t => t ++ closingText) :=
  response_in_template_set "hola" (1/2) (by norm_num) (by norm_num)

/-- C10: for every draw in `[0, 1)` the template index is within the bounds
of the five-element array, so the lookup never takes the `undefined`
branch. -/
theorem template_lookup_defined (s : String) (r : ℚ) (h0 : 0 ≤ r) (h1 : r < 1) :
    0 ≤ templateIndex s r ∧ templateIndex s r < 5 ∧
    (jsArrayGet (responses s) (templateIndex s r)).isSome = true := by
  obtain ⟨hi0, hi5⟩ := templateIndex_bounds s r h0 h1
  have hlt : (templateIndex s r).toNat < (responses s).length := by
    simp only [responses, List.length_cons, List.length_nil]
    omega
  refine ⟨hi0, hi5, ?_⟩
  unfold jsArrayGet
  rw [if_pos hi0, List.getElem?_eq_getElem hlt]
  rfl

/-- C10 witness: the lookup is defined at the concrete draw one third. -/
theorem template_lookup_defined_witness :
    0 ≤ templateIndex "hola" (1/3) ∧ templateIndex "hola" (1/3) < 5 ∧
    (jsArrayGet (responses "hola") (templateIndex "hola" (1/3))).isSome = true :=
  template_lookup_defined "hola" (1/3) (by norm_num) (by norm_num)

/-- In a reachable state at time `t`, every message timestamp is at most `t`
and the timestamps are nondecreasing along the list. -/
theorem reachable_timestamps (t : Nat) (s : SessionState) (h : Reachable t s) :
    (∀ m ∈ s.messages, m.timestamp ≤ t) ∧
    List.Chain' (fun a b : Message => a.timestamp ≤ b.timestamp) s.messages := by
  induction h with
  | init t0 =>
    refine ⟨?_, ?_⟩
    · intro m hm
      simp only [initialState, List.mem_singleton] at hm
      subst hm
      exact le_refl t0
    · simp [initialState]
  | submit content now hle hr ih =>
    obtain ⟨ihb, ihc⟩ := ih
    refine ⟨?_, ?_⟩
    · intro m hm
      simp only [handleSendMessage, List.mem_append, List.mem_singleton] at hm
      rcases hm with hm | hm
      · exact le_trans (ihb m hm) hle
      · subst hm
        exact le_refl now
    · refine List.chain'_append.mpr ⟨ihc, List.chain'_singleton _, ?_⟩
      intro x hx y hy
      simp only [List.head?_cons, Option.mem_def, Option.some_inj] at hy
      subst hy
      obtain ⟨hne, hxl⟩ := List.mem_getLast?_eq_getLast hx
      subst hxl
      exact le_trans (ihb _ (List.getLast_mem hne)) hle
  | fire content r now hle hmem hr ih =>
    obtain ⟨ihb, ihc⟩ := ih
    refine ⟨?_, ?_⟩
    · intro m hm
      simp only [fireResponse, List.mem_append, List.mem_singleton] at hm
      rcases hm with hm | hm
      · exact le_trans (ihb m hm) hle
      · subst hm
        exact le_refl now
    · refine List.chain'_append.mpr ⟨ihc, List.chain'_singleton _, ?_⟩
      intro x hx y hy
      simp only [List.head?_cons, Option.mem_def, Option.some_inj] at hy
      subst hy
      obtain ⟨hne, hxl⟩ := List.mem_getLast?_eq_getLast hx
      subst hxl
      exact le_trans (ihb _ (List.getLast_mem hne)) hle

/-- C7: in every reachable session state the messages are chronologically
ordered: each timestamp is at most the next one. -/
theorem messages_chronological (t : Nat) (s : SessionState) (h : Reachable t s)
    (i : Nat) (hi : i + 1 < s.messages.length) :
    (s.messages.get ⟨i, Nat.lt_of_succ_lt hi⟩).timestamp
      ≤ (s.messages.get ⟨i + 1, hi⟩).timestamp :=
  List.chain'_iff_get.mp (reachable_timestamps t s h).2 i (by omega)

/-- C7 witness: the ordering between the first two messages of a concrete
reachable state with three messages. -/
theorem messages_chronological_witness :
    ((fireResponse (handleSendMessage (initialState 0) "hola" 5) "hola" 0 1500).messages.get
        ⟨0, by decide⟩).timestamp
      ≤ ((fireResponse (handleSendMessage (initialState 0) "hola" 5) "hola" 0 1500).messages.get
        ⟨1, by decide⟩).timestamp :=
  messages_chronological 1500 _
    (Reachable.fire "hola" 0 1500 (by omega)
      (by simp [handleSendMessage, initialState])
      (Reachable.submit "hola" 5 (by omega) (Reachable.init 0)))
    0 (by decide)

/-- C8: both transitions are append-only: every message already present keeps
its content, role, id, timestamp and position, and exactly one new message is
added at the end. -/
theorem transitions_append_only (s : SessionState) (content : String)
    (now : Nat) (r : ℚ) :
    (handleSendMessage s content now).messages = s.messages ++ [userMessage content now] ∧
    (fireResponse s content r now).messages = s.messages ++ [almaMessage content r now] :=
  ⟨rfl, rfl⟩

end Alma
